import Mathlib

/-!
Verification of the axys-mcp-lite session multiplexer and tool dispatch.

Shallow embedding of the HTTP entry point (`dist/index.js`, the file
`src/unnamed/part_000`) and the upstream client (`axys-client.js`,
`src/unnamed/part_001`) of the axys-mcp-lite repository, together with
proofs about the session-table multiplexer, the tool dispatch switch,
the upstream-configuration resolution and the shutdown handler.

Conventions of the embedding:
* Session identifiers (UUID strings produced by `randomUUID`) are modelled
  as natural numbers handed out by a fresh-id counter; freshness of
  `randomUUID` is the one assumption folded into the model.
* The JavaScript object used as the session table is modelled as an
  association list with unique keys (uniqueness is proved, not assumed).
* The WHATWG `new URL(...)` parser is an external platform facility; it is
  abstracted as a boolean oracle `parses : String → Bool` (true exactly when
  the constructor does not throw).
* Network effects are abstracted as an oracle mapping each upstream request
  to its outcome; the list of issued upstream requests is threaded through
  the dispatch functions so that "no network call is attempted" is provable.
-/

namespace AxysMcp

/-- Hard-coded default upstream host (`DEFAULT_API_HOST` in part_000 line 11). -/
def DEFAULT_API_HOST : String := "https://directory.axys.ai"

/-- JavaScript truthiness of an optional string: `undefined` and the empty
string are falsy, every other string is truthy. -/
def jsTruthyStr : Option String → Bool
  | none => false
  | some s => s ≠ ""

/-- JS `s.startsWith(p)`: executable model of the platform string
primitive — the character sequence of `p` is a prefix of that of `s`. -/
def strStartsWith (s p : String) : Bool := p.data.isPrefixOf s.data

/-- The check `isValidUrl` (part_000 lines 17-27): falsy values are invalid; otherwise
the URL must parse (`new URL` does not throw, modelled by the oracle
`parses`) and start with `http://` or `https://`. -/
def isValidUrl (parses : String → Bool) (url : Option String) : Bool :=
  match url with
  | none => false
  | some u =>
      if u = "" then false
      else if parses u then (strStartsWith u "http://" || strStartsWith u "https://")
      else false

/-- The host actually used, given a configured value:
`isValidUrl(h) ? h : DEFAULT_API_HOST` (part_000 lines 37, 276, 314). -/
def resolveHost (parses : String → Bool) (configured : Option String) : String :=
  match configured with
  | none => DEFAULT_API_HOST
  | some u => if isValidUrl parses (some u) then u else DEFAULT_API_HOST

/-- Per-request configuration parsed from query parameters
(fields of the `config` object consumed by `getMcpClient`). -/
structure ClientConfig where
  AXYS_API_HOST : Option String
  MCP_KEY : Option String
deriving DecidableEq, Repr

/-- The constructed upstream client: `new GptMcpClient({host, mcpKey})`
(part_001): it is determined by its host and key. -/
structure GptMcpClient where
  host : String
  mcpKey : String
deriving DecidableEq, Repr

/-- Association-list lookup, modelling `map.get(k)` / `obj[k]`. -/
def alistLookup {α : Type} (table : List (String × α)) (k : String) : Option α :=
  (table.find? (fun e => e.1 = k)).map (fun e => e.2)

/-- The selector `getMcpClient(config)` (part_000 lines 33-50).  State threaded
explicitly: `cache` is the module-level `mcpClients` map and
`defaultClient` the module-level `defaultMcpClient`.  Returns the selected
client (possibly none) and the updated cache. -/
def getMcpClient (parses : String → Bool) (config : Option ClientConfig)
    (cache : List (String × GptMcpClient)) (defaultClient : Option GptMcpClient) :
    Option GptMcpClient × List (String × GptMcpClient) :=
  match config with
  | none => (defaultClient, cache)
  | some cfg =>
      match cfg.MCP_KEY with
      | none => (defaultClient, cache)
      | some key =>
          if key = "" then (defaultClient, cache)
          else
            let apiHost := resolveHost parses cfg.AXYS_API_HOST
            let configKey := apiHost ++ ":" ++ key
            match alistLookup cache configKey with
            | some c => (some c, cache)
            | none =>
                let c : GptMcpClient := ⟨apiHost, key⟩
                (some c, cache ++ [(configKey, c)])

/-- The startup host computation in `startStdioServer` / `startHttpServer`
(part_000 lines 276 and 314): identical expression to `resolveHost`. -/
def startupApiHost (parses : String → Bool) (envApiHost : Option String) : String :=
  if isValidUrl parses envApiHost then envApiHost.getD DEFAULT_API_HOST else DEFAULT_API_HOST

/-! Tool dispatch (`createMcpServer`'s CallToolRequestSchema handler) -/

/-- MCP SDK error codes used by the handler. -/
inductive ErrorCode where
  | InvalidParams
  | MethodNotFound
  | InternalError
deriving DecidableEq, Repr

/-- Constructor `new McpError(code, message)`. -/
structure McpError where
  code : ErrorCode
  message : String
deriving DecidableEq, Repr

/-- Any JavaScript exception reaching the handler's catch block: either an
`McpError` instance or some other error carrying a message. -/
inductive JsError where
  | mcp (e : McpError)
  | other (msg : String)
deriving DecidableEq, Repr

/-- The argument object of a tool call.  `none` models an absent
(`undefined`) property. -/
structure ToolArgs where
  query : Option String := none
  searchIndices : Option String := none
  fileOnly : Option Bool := none
deriving DecidableEq, Repr

/-- The request object passed to `mcpClient.aiSearch` (`GptSearchRequest`
in the types module); optional properties are present exactly when set. -/
structure GptSearchRequest where
  query : String
  searchType : String
  searchIndices : Option String := none
  fileOnly : Option Bool := none
deriving DecidableEq, Repr

/-- Outcome of one upstream `aiSearch` HTTP call: a JSON response (already
serialized, standing for `JSON.stringify(result, null, 2)`), a thrown
plain error, or a thrown `McpError`. -/
inductive UpstreamOutcome where
  | ok (serialized : String)
  | jsErr (msg : String)
  | mcpErr (e : McpError)
deriving DecidableEq, Repr

/-- A tool call result: the single text content item the handler returns. -/
structure ToolResult where
  text : String
deriving DecidableEq, Repr

/-- The probe `GptMcpClient.validateConnection` (part_001 lines 257-270): probes the
upstream with `aiSearch({query:'test', searchType:'structured'})`, returns
`true` on success and `false` on ANY thrown error — it never rethrows.
Also reports the upstream request it issued. -/
def validateConnection (upstream : GptSearchRequest → UpstreamOutcome) :
    Bool × List GptSearchRequest :=
  let req : GptSearchRequest := { query := "test", searchType := "structured" }
  match upstream req with
  | .ok _ => (true, [req])
  | .jsErr _ => (false, [req])
  | .mcpErr _ => (false, [req])

/-- The `switch (name)` body inside the handler's `try` block (part_000
lines 182-257), for a bound client (`mcpClient` non-null is guaranteed here
for the search tools by the guard before the `try`).  Returns the result or
the thrown exception, plus the upstream requests issued. -/
def toolSwitch (upstream : GptSearchRequest → UpstreamOutcome)
    (hasClient : Bool) (name : String) (args : ToolArgs) :
    Except JsError ToolResult × List GptSearchRequest :=
  if name = "ai_search_structured" then
    match args.query with
    | none => (.error (.mcp ⟨.InvalidParams, "query is required"⟩), [])
    | some q =>
        if q = "" then (.error (.mcp ⟨.InvalidParams, "query is required"⟩), [])
        else
          let req : GptSearchRequest := { query := q, searchType := "structured" }
          match upstream req with
          | .ok s => (.ok ⟨s⟩, [req])
          | .jsErr m => (.error (.other m), [req])
          | .mcpErr e => (.error (.mcp e), [req])
  else if name = "ai_search_unstructured" then
    match args.query with
    | none => (.error (.mcp ⟨.InvalidParams, "query is required"⟩), [])
    | some q =>
        if q = "" then (.error (.mcp ⟨.InvalidParams, "query is required"⟩), [])
        else
          let req : GptSearchRequest :=
            { query := q
              searchType := "unstructured"
              searchIndices := if jsTruthyStr args.searchIndices then args.searchIndices else none
              fileOnly := args.fileOnly }
          match upstream req with
          | .ok s => (.ok ⟨s⟩, [req])
          | .jsErr m => (.error (.other m), [req])
          | .mcpErr e => (.error (.mcp e), [req])
  else if name = "validate_connection" then
    if hasClient then
      let probe := validateConnection upstream
      (.ok ⟨if probe.1 then "✓ Connection to MCP API is valid and working"
            else "✗ Failed to connect to MCP API. Please check your configuration."⟩,
       probe.2)
    else
      (.ok ⟨"✗ MCP client not initialized. Please check MCP_KEY configuration."⟩, [])
  else
    (.error (.mcp ⟨.MethodNotFound, "Unknown tool: " ++ name⟩), [])

/-- The handler's `catch` block (part_000 lines 259-268): an `McpError` is
rethrown unchanged, anything else becomes an `InternalError` carrying the
original message. -/
def catchConvert (name : String) :
    Except JsError ToolResult → Except McpError ToolResult
  | .ok r => .ok r
  | .error (.mcp e) => .error e
  | .error (.other m) => .error ⟨.InternalError, "Error executing " ++ name ++ ": " ++ m⟩

/-- The full CallToolRequestSchema handler (part_000 lines 166-269):
the client-not-initialized guard, then the `try { switch } catch`. -/
def callToolHandler (client : Option GptMcpClient)
    (upstream : GptSearchRequest → UpstreamOutcome)
    (name : String) (args : ToolArgs) :
    Except McpError ToolResult × List GptSearchRequest :=
  if client.isNone && name ≠ "validate_connection" then
    (.ok ⟨"Error: MCP client not initialized. Please check MCP_KEY configuration."⟩, [])
  else
    let inner := toolSwitch upstream client.isSome name args
    (catchConvert name inner.1, inner.2)

/-! The session transport multiplexer (`startHttpServer`, part_000 lines 311-473)

Session identifiers are naturals handed out by a monotone counter
(`randomUUID` modelled as a fresh-id generator).  A transport records the
session id assigned to it by `onsessioninitialized`. -/

/-- A `StreamableHTTPServerTransport`: after initialization it knows its
session id (`transport.sessionId`). -/
structure Transport where
  sessionId : Option Nat := none
deriving DecidableEq, Repr

/-- The session table `transports` : a JS object keyed by session id. -/
abbrev SessionTable : Type := List (Nat × Transport)

/-- Lookup of `transports[sid]`. -/
def lookupSession (table : SessionTable) (sid : Nat) : Option Transport :=
  (table.find? (fun e => e.1 = sid)).map (fun e => e.2)

/-- Removal `delete transports[sid]`. -/
def deleteSession (table : SessionTable) (sid : Nat) : SessionTable :=
  table.filter (fun e => e.1 ≠ sid)

/-- Outcome of the POST `/mcp` handler, as observable at the HTTP layer. -/
inductive PostOutcome where
  /-- Routed to the existing transport for `sid`. -/
  | routed (sid : Nat)
  /-- A fresh transport was created, connected, and registered under `sid`. -/
  | created (sid : Nat)
  /-- Response `res.status(status).json(...)` with a JSON-RPC error envelope. -/
  | rejected (status : Nat) (code : Int) (message : String)
deriving DecidableEq, Repr

/-- Multiplexer state: the session table, the multiset of ids ever
generated (history, for uniqueness claims), and the fresh-id counter. -/
structure MuxState where
  table : SessionTable
  history : List Nat
  nextId : Nat
deriving DecidableEq, Repr

/-- State at process start: empty table, no ids generated. -/
def initMuxState : MuxState := ⟨[], [], 0⟩

/-- The POST `/mcp` handler (part_000 lines 369-429).
Branch 1: session header present and in the table → reuse that transport.
Branch 2: no header and the body is an initialization message → create a
transport whose `sessionIdGenerator` yields a fresh id; during
`handleRequest` of a valid init message `onsessioninitialized` fires and
inserts the entry (modelled synchronously here).
Branch 3: otherwise → 400, JSON-RPC error `-32000`. -/
def handlePost (s : MuxState) (header : Option Nat) (isInit : Bool) :
    PostOutcome × MuxState :=
  match header with
  | some sid =>
      if (lookupSession s.table sid).isSome then (.routed sid, s)
      else (.rejected 400 (-32000) "Bad Request: No valid session ID provided", s)
  | none =>
      if isInit then
        let sid := s.nextId
        (.created sid,
         ⟨s.table ++ [(sid, ⟨some sid⟩)], s.history ++ [sid], s.nextId + 1⟩)
      else
        (.rejected 400 (-32000) "Bad Request: No valid session ID provided", s)

/-- The `transport.onclose` callback (part_000 lines 390-396): if the
transport has a session id that is still in the table, delete the entry;
otherwise do nothing.  No code path throws. -/
def oncloseCleanup (table : SessionTable) (t : Transport) : SessionTable :=
  match t.sessionId with
  | none => table
  | some sid =>
      if (lookupSession table sid).isSome then deleteSession table sid else table

/-- The close step on multiplexer state: some transport signals closure. -/
def closeStep (s : MuxState) (t : Transport) : MuxState :=
  ⟨oncloseCleanup s.table t, s.history, s.nextId⟩

/-- HTTP-layer outcome of the GET/DELETE `/mcp` handlers. -/
inductive SimpleOutcome where
  | handled (sid : Nat)
  | badRequest (status : Nat) (message : String)
deriving DecidableEq, Repr

/-- The DELETE `/mcp` handler (part_000 lines 442-451): requires a session
header matching a table entry, else a plain-text 400; on match, hands off
to the transport (which will run its close sequence, firing `onclose`). -/
def handleDelete (table : SessionTable) (header : Option Nat) : SimpleOutcome :=
  match header with
  | none => .badRequest 400 "Invalid or missing session ID"
  | some sid =>
      if (lookupSession table sid).isSome then .handled sid
      else .badRequest 400 "Invalid or missing session ID"

/-- States reachable from process start by the multiplexer's operations:
POST requests and transport-close signals. -/
inductive Reachable : MuxState → Prop where
  | init : Reachable initMuxState
  | post {s : MuxState} (header : Option Nat) (isInit : Bool) :
      Reachable s → Reachable (handlePost s header isInit).2
  | close {s : MuxState} (t : Transport) :
      Reachable s → Reachable (closeStep s t)

/-- Invariant of the multiplexer state: table keys are pairwise distinct,
the id history has no duplicates, every generated id is below the counter,
and every live table key was generated. -/
def MuxInv (s : MuxState) : Prop :=
  (s.table.map Prod.fst).Nodup ∧
  s.history.Nodup ∧
  (∀ i ∈ s.history, i < s.nextId) ∧
  (∀ i ∈ s.table.map Prod.fst, i ∈ s.history)

/-- The process-shutdown loop (part_000 lines 460-472): iterate the table;
for each entry `await close()` then `delete` — but the `delete` sits inside
the `try`, so an entry whose `close()` throws is logged and NOT removed.
`closeFails sid` tells whether that transport's `close()` throws.
Returns the table left behind and the list of sessions whose close was
attempted. -/
def shutdownLoop (closeFails : Nat → Bool) :
    SessionTable → SessionTable × List Nat
  | [] => ([], [])
  | e :: rest =>
      let tail := shutdownLoop closeFails rest
      if closeFails e.1 then (e :: tail.1, e.1 :: tail.2)
      else (tail.1, e.1 :: tail.2)

/-- Result of the SIGINT handler: leftover table, attempted closes, and the
process exit code (`process.exit(0)` unconditionally). -/
structure ShutdownResult where
  table : SessionTable
  attempted : List Nat
  exitCode : Nat
deriving Repr

/-- The SIGINT handler (part_000 lines 460-472). -/
def sigintHandler (closeFails : Nat → Bool) (table : SessionTable) : ShutdownResult :=
  let l := shutdownLoop closeFails table
  ⟨l.1, l.2, 0⟩

/-! Helper lemmas -/

theorem startupApiHost_eq_resolveHost (parses : String → Bool) (envApiHost : Option String) :
    startupApiHost parses envApiHost = resolveHost parses envApiHost := by
  cases envApiHost with
  | none => simp [startupApiHost, resolveHost, isValidUrl]
  | some u => simp [startupApiHost, resolveHost, Option.getD]

theorem lookupSession_eq_none_iff (table : SessionTable) (sid : Nat) :
    lookupSession table sid = none ↔ ∀ e ∈ table, e.1 ≠ sid := by
  simp [lookupSession, Option.map_eq_none', List.find?_eq_none]

theorem lookupSession_delete_self (table : SessionTable) (sid : Nat) :
    lookupSession (deleteSession table sid) sid = none := by
  rw [lookupSession_eq_none_iff]
  intro e he
  unfold deleteSession at he
  exact of_decide_eq_true (List.mem_filter.mp he).2

theorem keys_delete_subset (table : SessionTable) (sid i : Nat)
    (h : i ∈ (deleteSession table sid).map Prod.fst) : i ∈ table.map Prod.fst := by
  unfold deleteSession at h
  simp only [List.mem_map] at h ⊢
  obtain ⟨e, he, rfl⟩ := h
  exact ⟨e, (List.mem_filter.mp he).1, rfl⟩

theorem nodupKeys_delete (table : SessionTable) (sid : Nat)
    (h : (table.map Prod.fst).Nodup) : ((deleteSession table sid).map Prod.fst).Nodup := by
  unfold deleteSession
  exact ((List.filter_sublist table).map Prod.fst).nodup h

theorem handlePost_some_state (s : MuxState) (sid : Nat) (isInit : Bool) :
    (handlePost s (some sid) isInit).2 = s := by
  unfold handlePost
  by_cases h : (lookupSession s.table sid).isSome <;> simp [h]

theorem handlePost_none_init (s : MuxState) :
    handlePost s none true =
      (.created s.nextId,
       ⟨s.table ++ [(s.nextId, ⟨some s.nextId⟩)], s.history ++ [s.nextId], s.nextId + 1⟩) :=
  rfl

theorem handlePost_none_noinit (s : MuxState) :
    handlePost s none false =
      (.rejected 400 (-32000) "Bad Request: No valid session ID provided", s) :=
  rfl

theorem muxInv_init : MuxInv initMuxState := by
  simp [MuxInv, initMuxState]

theorem muxInv_post (s : MuxState) (header : Option Nat) (isInit : Bool)
    (h : MuxInv s) : MuxInv (handlePost s header isInit).2 := by
  obtain ⟨h1, h2, h3, h4⟩ := h
  match header with
  | some sid => rw [handlePost_some_state]; exact ⟨h1, h2, h3, h4⟩
  | none =>
      cases isInit with
      | false => rw [handlePost_none_noinit]; exact ⟨h1, h2, h3, h4⟩
      | true =>
          rw [handlePost_none_init]
          have hfresh : s.nextId ∉ s.history := fun hm => absurd (h3 _ hm) (lt_irrefl _)
          have hfreshK : s.nextId ∉ s.table.map Prod.fst := fun hm => hfresh (h4 _ hm)
          have hkeys : (s.table ++ [(s.nextId, (⟨some s.nextId⟩ : Transport))]).map Prod.fst
              = s.table.map Prod.fst ++ [s.nextId] := by simp
          refine ⟨?_, ?_, ?_, ?_⟩
          · rw [hkeys]
            exact h1.append (List.nodup_singleton _)
              (fun x hx hmem => by simp at hmem; subst hmem; exact hfreshK hx)
          · exact h2.append (List.nodup_singleton _)
              (fun x hx hmem => by simp at hmem; subst hmem; exact hfresh hx)
          · intro i hi
            rcases List.mem_append.mp hi with hi | hi
            · exact Nat.lt_succ_of_lt (h3 _ hi)
            · rw [List.mem_singleton.mp hi]; exact Nat.lt_succ_self _
          · intro i hi
            rw [hkeys] at hi
            rcases List.mem_append.mp hi with hi | hi
            · exact List.mem_append.mpr (Or.inl (h4 _ hi))
            · exact List.mem_append.mpr (Or.inr hi)

theorem muxInv_close (s : MuxState) (t : Transport) (h : MuxInv s) :
    MuxInv (closeStep s t) := by
  obtain ⟨h1, h2, h3, h4⟩ := h
  unfold closeStep oncloseCleanup
  cases ht : t.sessionId with
  | none => exact ⟨h1, h2, h3, h4⟩
  | some sid =>
      by_cases hl : (lookupSession s.table sid).isSome
      · simp only [hl, if_pos]
        exact ⟨nodupKeys_delete _ _ h1, h2, h3,
          fun i hi => h4 i (keys_delete_subset _ _ _ hi)⟩
      · simp only [hl, if_neg]
        exact ⟨h1, h2, h3, h4⟩

theorem reachable_muxInv {s : MuxState} (h : Reachable s) : MuxInv s := by
  induction h with
  | init => exact muxInv_init
  | post header isInit _ ih => exact muxInv_post _ header isInit ih
  | close t _ ih => exact muxInv_close _ t ih

theorem oncloseCleanup_eq (table : SessionTable) (t : Transport) (sid : Nat)
    (h : t.sessionId = some sid) :
    oncloseCleanup table t =
      if (lookupSession table sid).isSome then deleteSession table sid else table := by
  unfold oncloseCleanup
  rw [h]

theorem shutdownLoop_spec (closeFails : Nat → Bool) (table : SessionTable) :
    shutdownLoop closeFails table
      = (table.filter (fun e => closeFails e.1), table.map Prod.fst) := by
  induction table with
  | nil => rfl
  | cons e rest ih =>
      unfold shutdownLoop
      rw [ih, List.filter_cons, List.map_cons]
      by_cases h : closeFails e.1 <;> simp [h]

/-! Claim theorems -/

/-- C1.  A POST to `/mcp` whose session header names an identifier absent
from the session table is always rejected with JSON-RPC error `-32000`,
message "Bad Request: No valid session ID provided", HTTP status 400, and
leaves the multiplexer state (in particular the session table) unchanged —
even when the body is an initialization message.  No session is created. -/
theorem post_unknown_session_never_creates (s : MuxState) (sid : Nat) (isInit : Bool)
    (h : lookupSession s.table sid = none) :
    handlePost s (some sid) isInit =
      (PostOutcome.rejected 400 (-32000) "Bad Request: No valid session ID provided", s) := by
  simp [handlePost, h]

theorem post_unknown_session_never_creates_witness :
    lookupSession ([(0, ⟨some 0⟩)] : SessionTable) 5 = none ∧
    handlePost ⟨[(0, ⟨some 0⟩)], [0], 1⟩ (some 5) true =
      (PostOutcome.rejected 400 (-32000) "Bad Request: No valid session ID provided",
       ⟨[(0, ⟨some 0⟩)], [0], 1⟩) :=
  ⟨rfl, post_unknown_session_never_creates ⟨[(0, ⟨some 0⟩)], [0], 1⟩ 5 true rfl⟩

/-- C2.  In every reachable multiplexer state the session table has at most
one live entry per session identifier (its key list has no duplicates); a
single valid initialization POST without a session header creates exactly
one session, whose generated identifier is fresh with respect to the entire
identifier history of the process. -/
theorem session_table_uniqueness (s : MuxState) (hs : Reachable s) :
    (s.table.map Prod.fst).Nodup ∧
    s.nextId ∉ s.history ∧
    (handlePost s none true).1 = PostOutcome.created s.nextId ∧
    (handlePost s none true).2.table = s.table ++ [(s.nextId, ⟨some s.nextId⟩)] ∧
    (handlePost s none true).2.history = s.history ++ [s.nextId] := by
  obtain ⟨h1, _, h3, _⟩ := reachable_muxInv hs
  exact ⟨h1, fun hm => absurd (h3 _ hm) (lt_irrefl _), rfl, rfl, rfl⟩

theorem session_table_uniqueness_witness :
    ((([(0, ⟨some 0⟩)] : SessionTable).map Prod.fst).Nodup ∧
     (1 : Nat) ∉ [0] ∧
     (handlePost ⟨[(0, ⟨some 0⟩)], [0], 1⟩ none true).1 = PostOutcome.created 1 ∧
     (handlePost ⟨[(0, ⟨some 0⟩)], [0], 1⟩ none true).2.table
        = [(0, ⟨some 0⟩)] ++ [(1, ⟨some 1⟩)] ∧
     (handlePost ⟨[(0, ⟨some 0⟩)], [0], 1⟩ none true).2.history = [0] ++ [1]) :=
  session_table_uniqueness ⟨[(0, ⟨some 0⟩)], [0], 1⟩
    (Reachable.post none true Reachable.init)

/-- C3.  Session removal is idempotent: running the transport's close
callback twice equals running it once, the entry is never retained in the
table after the transport signals closure, closing an already-removed
session leaves the table untouched (no failure path exists), and a DELETE
for an absent session is answered with a 400 rejection. -/
theorem session_close_idempotent (table : SessionTable) (t : Transport) (sid : Nat)
    (h : t.sessionId = some sid) :
    oncloseCleanup (oncloseCleanup table t) t = oncloseCleanup table t ∧
    lookupSession (oncloseCleanup table t) sid = none ∧
    oncloseCleanup (deleteSession table sid) t = deleteSession table sid ∧
    handleDelete (deleteSession table sid) (some sid) =
      SimpleOutcome.badRequest 400 "Invalid or missing session ID" := by
  have hdel : lookupSession (deleteSession table sid) sid = none :=
    lookupSession_delete_self table sid
  have hC : oncloseCleanup (deleteSession table sid) t = deleteSession table sid := by
    rw [oncloseCleanup_eq (deleteSession table sid) t sid h, hdel]
    rfl
  have hB : lookupSession (oncloseCleanup table t) sid = none := by
    rw [oncloseCleanup_eq table t sid h]
    by_cases hl : (lookupSession table sid).isSome
    · rw [if_pos hl]; exact hdel
    · rw [if_neg hl]; exact Option.not_isSome_iff_eq_none.mp hl
  have hA : oncloseCleanup (oncloseCleanup table t) t = oncloseCleanup table t := by
    rw [oncloseCleanup_eq (oncloseCleanup table t) t sid h, hB]
    rfl
  have hD : handleDelete (deleteSession table sid) (some sid) =
      SimpleOutcome.badRequest 400 "Invalid or missing session ID" := by
    simp [handleDelete, hdel]
  exact ⟨hA, hB, hC, hD⟩

theorem session_close_idempotent_witness :
    (oncloseCleanup (oncloseCleanup [(0, ⟨some 0⟩), (1, ⟨some 1⟩)] ⟨some 0⟩) ⟨some 0⟩ =
      oncloseCleanup [(0, ⟨some 0⟩), (1, ⟨some 1⟩)] ⟨some 0⟩ ∧
    lookupSession (oncloseCleanup [(0, ⟨some 0⟩), (1, ⟨some 1⟩)] ⟨some 0⟩) 0 = none ∧
    oncloseCleanup (deleteSession [(0, ⟨some 0⟩), (1, ⟨some 1⟩)] 0) ⟨some 0⟩ =
      deleteSession [(0, ⟨some 0⟩), (1, ⟨some 1⟩)] 0 ∧
    handleDelete (deleteSession [(0, ⟨some 0⟩), (1, ⟨some 1⟩)] 0) (some 0) =
      SimpleOutcome.badRequest 400 "Invalid or missing session ID") :=
  session_close_idempotent [(0, ⟨some 0⟩), (1, ⟨some 1⟩)] ⟨some 0⟩ 0 rfl

/-- C9 counterexample.  A session table holding one transport whose
`close()` throws: after the SIGINT shutdown loop the table still contains
that entry (the `delete` sits after the `await close()` inside the `try`,
so it is skipped when `close()` throws), contradicting the claim that the
table afterwards contains no entries. -/
theorem shutdown_counterexample :
    (sigintHandler (fun _ => true) [(0, ⟨some 0⟩)]).table = [(0, ⟨some 0⟩)] ∧
    (sigintHandler (fun _ => true) [(0, ⟨some 0⟩)]).table ≠ [] ∧
    (sigintHandler (fun _ => true) [(0, ⟨some 0⟩)]).exitCode = 0 := by
  refine ⟨rfl, ?_, rfl⟩
  intro hc
  exact List.cons_ne_nil _ _ hc

/-- C9 as amended.  On the termination signal the handler attempts to close
every transport in the table (in table order), continues past failures, and
exits with code 0; entries whose `close()` succeeded are removed, but an
entry whose `close()` threw remains in the table at exit — so the table is
empty afterwards exactly when no close failed, not unconditionally. -/
theorem shutdown_best_effort (closeFails : Nat → Bool) (table : SessionTable) :
    (sigintHandler closeFails table).exitCode = 0 ∧
    (sigintHandler closeFails table).attempted = table.map Prod.fst ∧
    (sigintHandler closeFails table).table = table.filter (fun e => closeFails e.1) := by
  unfold sigintHandler
  rw [shutdownLoop_spec]
  exact ⟨rfl, rfl, rfl⟩

/-- C4 counterexample.  With no upstream client bound (`mcpClient` null:
no `MCP_KEY` in the environment and none in the query config) a call to
`ai_search_structured` with a missing `query` does NOT fail with an
invalid-parameters protocol error: the initial guard returns a plain text
result instead, so the claim's universally quantified statement is false
at this input (though still no upstream call is attempted). -/
theorem query_guard_counterexample :
    callToolHandler none (fun _ => UpstreamOutcome.ok "response") "ai_search_structured"
        ⟨none, none, none⟩ =
      (Except.ok ⟨"Error: MCP client not initialized. Please check MCP_KEY configuration."⟩,
       []) ∧
    (callToolHandler none (fun _ => UpstreamOutcome.ok "response") "ai_search_structured"
        ⟨none, none, none⟩).1 ≠
      Except.error ⟨ErrorCode.InvalidParams, "query is required"⟩ := by
  refine ⟨rfl, ?_⟩
  intro hc
  simp [callToolHandler, toolSwitch, catchConvert] at hc

/-- C4 as amended.  A call to `ai_search_structured` or
`ai_search_unstructured` whose `query` is missing or empty never issues an
upstream request; when an upstream client is bound it fails with the
invalid-parameters protocol error `query is required`, and when no client
is bound it returns the client-not-initialized text result instead. -/
theorem query_guard_amended (client : Option GptMcpClient)
    (upstream : GptSearchRequest → UpstreamOutcome) (args : ToolArgs) (name : String)
    (hn : name = "ai_search_structured" ∨ name = "ai_search_unstructured")
    (hq : args.query = none ∨ args.query = some "") :
    (callToolHandler client upstream name args).2 = [] ∧
    (callToolHandler client upstream name args).1 =
      (match client with
       | some _ => Except.error ⟨ErrorCode.InvalidParams, "query is required"⟩
       | none =>
           Except.ok
             ⟨"Error: MCP client not initialized. Please check MCP_KEY configuration."⟩) := by
  cases client <;> rcases hn with rfl | rfl <;> rcases hq with hq | hq <;>
    simp [callToolHandler, toolSwitch, catchConvert, hq]

theorem query_guard_amended_witness :
    ((callToolHandler (some ⟨DEFAULT_API_HOST, "key"⟩) (fun _ => UpstreamOutcome.ok "r")
        "ai_search_structured" ⟨some "", none, none⟩).2 = [] ∧
     (callToolHandler (some ⟨DEFAULT_API_HOST, "key"⟩) (fun _ => UpstreamOutcome.ok "r")
        "ai_search_structured" ⟨some "", none, none⟩).1 =
       Except.error ⟨ErrorCode.InvalidParams, "query is required"⟩) :=
  query_guard_amended (some ⟨DEFAULT_API_HOST, "key"⟩) (fun _ => UpstreamOutcome.ok "r")
    ⟨some "", none, none⟩ "ai_search_structured" (Or.inl rfl) (Or.inr rfl)

/-- C5 counterexample.  Explicitly supplying `searchIndices` as the empty
string is NOT forwarded: the guard `if (args?.searchIndices)` tests JS
truthiness, so the forwarded upstream request carries no `searchIndices`
even though the caller supplied it — refuting the "if and only if
explicitly supplied" round-trip for `searchIndices`. -/
theorem optional_forwarding_counterexample :
    (callToolHandler (some ⟨DEFAULT_API_HOST, "key"⟩) (fun _ => UpstreamOutcome.ok "r")
        "ai_search_unstructured" ⟨some "q", some "", some false⟩).2 =
      [{ query := "q", searchType := "unstructured", searchIndices := none,
         fileOnly := some false }] ∧
    (⟨some "q", some "", some false⟩ : ToolArgs).searchIndices = some "" ∧
    ({ query := "q", searchType := "unstructured", searchIndices := none,
       fileOnly := some false } : GptSearchRequest).searchIndices ≠ some "" := by
  refine ⟨rfl, rfl, ?_⟩
  simp

/-- C5 as amended.  For a non-empty `query`, `ai_search_unstructured`
forwards exactly one upstream request in which `fileOnly` is present if and
only if the caller explicitly supplied it (explicit `false` is forwarded as
`false`, distinguishable from omission), while `searchIndices` is present
if and only if the caller supplied it as a NON-EMPTY string: an explicitly
supplied empty `searchIndices` is dropped like an omission. -/
theorem optional_forwarding_amended (c : GptMcpClient)
    (upstream : GptSearchRequest → UpstreamOutcome) (q : String) (si : Option String)
    (fo : Option Bool) (hq : q ≠ "") :
    (callToolHandler (some c) upstream "ai_search_unstructured" ⟨some q, si, fo⟩).2 =
      [{ query := q, searchType := "unstructured",
         searchIndices := if jsTruthyStr si then si else none, fileOnly := fo }] := by
  cases hu : upstream ⟨q, "unstructured", (if jsTruthyStr si then si else none), fo⟩ <;>
    simp [callToolHandler, toolSwitch, hq, hu]

theorem optional_forwarding_amended_witness :
    ((callToolHandler (some ⟨DEFAULT_API_HOST, "key"⟩) (fun _ => UpstreamOutcome.ok "r")
        "ai_search_unstructured" ⟨some "q", none, some false⟩).2 =
      [{ query := "q", searchType := "unstructured",
         searchIndices := if jsTruthyStr none then none else none,
         fileOnly := some false }]) :=
  optional_forwarding_amended ⟨DEFAULT_API_HOST, "key"⟩ (fun _ => UpstreamOutcome.ok "r")
    "q" none (some false) (by decide)

/-- C6.  `validate_connection` never produces a protocol error: for every
client binding and every outcome of the upstream connectivity probe
(success, an unreachable upstream, or any thrown exception) the handler
returns an `ok` text result indicating success or failure. -/
theorem validate_connection_never_throws (client : Option GptMcpClient)
    (upstream : GptSearchRequest → UpstreamOutcome) (args : ToolArgs) :
    (callToolHandler client upstream "validate_connection" args).1 =
      Except.ok
        (ToolResult.mk
          (match client with
           | none => "✗ MCP client not initialized. Please check MCP_KEY configuration."
           | some _ =>
               match upstream { query := "test", searchType := "structured" } with
               | .ok _ => "✓ Connection to MCP API is valid and working"
               | .jsErr _ => "✗ Failed to connect to MCP API. Please check your configuration."
               | .mcpErr _ =>
                   "✗ Failed to connect to MCP API. Please check your configuration.")) := by
  cases client with
  | none => simp [callToolHandler, toolSwitch, catchConvert]
  | some c =>
      cases hu : upstream { query := "test", searchType := "structured" } <;>
        simp [callToolHandler, toolSwitch, catchConvert, validateConnection, hu]

/-- C7 counterexample.  With no upstream client bound, a call to an unknown
tool name does NOT fail with a method-not-found protocol error: the initial
guard returns the client-not-initialized text result before the dispatch
switch is reached, so the claim's unknown-tool clause is false at this
input. -/
theorem unknown_tool_counterexample :
    callToolHandler none (fun _ => UpstreamOutcome.ok "response") "nonexistent_tool"
        ⟨none, none, none⟩ =
      (Except.ok ⟨"Error: MCP client not initialized. Please check MCP_KEY configuration."⟩,
       []) ∧
    (callToolHandler none (fun _ => UpstreamOutcome.ok "response") "nonexistent_tool"
        ⟨none, none, none⟩).1 ≠
      Except.error ⟨ErrorCode.MethodNotFound, "Unknown tool: nonexistent_tool"⟩ := by
  refine ⟨rfl, ?_⟩
  intro hc
  simp [callToolHandler, toolSwitch, catchConvert] at hc

/-- C7 as amended.  The dispatch catch block re-throws `McpError`-typed
exceptions unchanged and converts every other exception into an
internal-error protocol error carrying the original message; an unknown
tool name fails with a method-not-found protocol error when an upstream
client is bound, while with no client bound the initial guard answers any
tool other than `validate_connection` (unknown names included) with the
client-not-initialized text result instead. -/
theorem error_conversion_amended (upstream : GptSearchRequest → UpstreamOutcome)
    (name : String) (args : ToolArgs) (c : GptMcpClient) (e : McpError) (m r : String)
    (h1 : name ≠ "ai_search_structured") (h2 : name ≠ "ai_search_unstructured")
    (h3 : name ≠ "validate_connection") :
    catchConvert name (Except.error (JsError.mcp e)) = Except.error e ∧
    catchConvert name (Except.error (JsError.other m)) =
      Except.error ⟨ErrorCode.InternalError, "Error executing " ++ name ++ ": " ++ m⟩ ∧
    catchConvert name (Except.ok ⟨r⟩) = Except.ok ⟨r⟩ ∧
    callToolHandler (some c) upstream name args =
      (Except.error ⟨ErrorCode.MethodNotFound, "Unknown tool: " ++ name⟩, []) ∧
    callToolHandler none upstream name args =
      (Except.ok ⟨"Error: MCP client not initialized. Please check MCP_KEY configuration."⟩,
       []) := by
  refine ⟨rfl, rfl, rfl, ?_, ?_⟩
  · simp [callToolHandler, toolSwitch, catchConvert, h1, h2, h3]
  · simp [callToolHandler, toolSwitch, catchConvert, h3]

theorem error_conversion_amended_witness :
    (catchConvert "other_tool" (Except.error (JsError.mcp ⟨ErrorCode.InvalidParams, "bad"⟩)) =
      Except.error ⟨ErrorCode.InvalidParams, "bad"⟩ ∧
    catchConvert "other_tool" (Except.error (JsError.other "boom")) =
      Except.error ⟨ErrorCode.InternalError, "Error executing " ++ "other_tool" ++ ": " ++ "boom"⟩ ∧
    catchConvert "other_tool" (Except.ok ⟨"fine"⟩) = Except.ok ⟨"fine"⟩ ∧
    callToolHandler (some ⟨DEFAULT_API_HOST, "key"⟩) (fun _ => UpstreamOutcome.ok "r")
        "other_tool" ⟨none, none, none⟩ =
      (Except.error ⟨ErrorCode.MethodNotFound, "Unknown tool: " ++ "other_tool"⟩, []) ∧
    callToolHandler none (fun _ => UpstreamOutcome.ok "r") "other_tool" ⟨none, none, none⟩ =
      (Except.ok ⟨"Error: MCP client not initialized. Please check MCP_KEY configuration."⟩,
       [])) :=
  error_conversion_amended (fun _ => UpstreamOutcome.ok "r") "other_tool" ⟨none, none, none⟩
    ⟨DEFAULT_API_HOST, "key"⟩ ⟨ErrorCode.InvalidParams, "bad"⟩ "boom" "fine"
    (by decide) (by decide) (by decide)

/-- C8.  A configured upstream host failing URL validation (unparseable, or
not an `http://`/`https://` URL, or missing) resolves to the hard-coded
default host, and a valid host is used as given; the same resolution
expression governs the `AXYS_API_HOST` environment variable at startup
(`startupApiHost`) and the per-request query config inside `getMcpClient`,
whose freshly constructed client carries exactly the resolved host. -/
theorem host_fallback_theorem (parses : String → Bool) (cfg : ClientConfig)
    (cache : List (String × GptMcpClient)) (defaultClient : Option GptMcpClient)
    (key : String) (hkey : cfg.MCP_KEY = some key) (hk : key ≠ "")
    (hmiss : alistLookup cache (resolveHost parses cfg.AXYS_API_HOST ++ ":" ++ key) = none) :
    (getMcpClient parses (some cfg) cache defaultClient).1 =
      some ⟨resolveHost parses cfg.AXYS_API_HOST, key⟩ ∧
    (getMcpClient parses (some cfg) cache defaultClient).2 =
      cache ++ [(resolveHost parses cfg.AXYS_API_HOST ++ ":" ++ key,
                 ⟨resolveHost parses cfg.AXYS_API_HOST, key⟩)] ∧
    startupApiHost parses cfg.AXYS_API_HOST = resolveHost parses cfg.AXYS_API_HOST ∧
    (isValidUrl parses cfg.AXYS_API_HOST = false →
      resolveHost parses cfg.AXYS_API_HOST = DEFAULT_API_HOST) ∧
    (∀ u : String, isValidUrl parses (some u) = true → resolveHost parses (some u) = u) := by
  refine ⟨?_, ?_, startupApiHost_eq_resolveHost parses cfg.AXYS_API_HOST, ?_, ?_⟩
  · simp [getMcpClient, hkey, hk, hmiss]
  · simp [getMcpClient, hkey, hk, hmiss]
  · intro hinv
    cases hc : cfg.AXYS_API_HOST with
    | none => simp [resolveHost]
    | some u => rw [hc] at hinv; simp [resolveHost, hinv]
  · intro u hu
    simp [resolveHost, hu]

theorem host_fallback_theorem_witness :
    ((getMcpClient (fun _ => false) (some ⟨some "not a url", some "k"⟩) [] none).1 =
      some ⟨DEFAULT_API_HOST, "k"⟩ ∧
     resolveHost (fun _ => false) (some "not a url") = DEFAULT_API_HOST ∧
     resolveHost (fun _ => true) (some "https://directory.axys.ai") =
       "https://directory.axys.ai") := by
  obtain ⟨w1, _, _, w4, _⟩ :=
    host_fallback_theorem (fun _ => false) ⟨some "not a url", some "k"⟩ [] none "k"
      rfl (by decide) rfl
  obtain ⟨_, _, _, _, w5⟩ :=
    host_fallback_theorem (fun _ => true) ⟨some "https://directory.axys.ai", some "k"⟩ [] none
      "k" rfl (by decide) rfl
  refine ⟨?_, w4 (by decide), w5 "https://directory.axys.ai" (by decide)⟩
  rw [w1]
  rw [w4 (by decide)]

/-- C10.  A per-request query config whose `MCP_KEY` is absent or the empty
string never selects or constructs a tenant client: `getMcpClient` returns
the process-wide default client (which may be null) exactly as when no
config is supplied at all, and the client cache is left unchanged (no entry
is created); the Protocol Server Instance built by `createMcpServer` is
therefore silently bound to that default client. -/
theorem empty_key_uses_default_client (parses : String → Bool) (cfg : ClientConfig)
    (cache : List (String × GptMcpClient)) (defaultClient : Option GptMcpClient)
    (h : cfg.MCP_KEY = none ∨ cfg.MCP_KEY = some "") :
    getMcpClient parses (some cfg) cache defaultClient = (defaultClient, cache) ∧
    getMcpClient parses (some cfg) cache defaultClient =
      getMcpClient parses none cache defaultClient := by
  rcases h with h | h <;> simp [getMcpClient, h]

theorem empty_key_uses_default_client_witness :
    (getMcpClient (fun _ => true) (some ⟨some "https://h", some ""⟩) [] none = (none, []) ∧
     getMcpClient (fun _ => true) (some ⟨some "https://h", some ""⟩) [] none =
       getMcpClient (fun _ => true) none [] none) :=
  empty_key_uses_default_client (fun _ => true) ⟨some "https://h", some ""⟩ [] none
    (Or.inr rfl)

end AxysMcp
